import Mathlib

namespace LogAggregator

/-- Model of Python random.randint a b: an inclusive draw from the interval
[a, b], uniform when the source value r is uniform, represented as
a + r % (b - a + 1) for an arbitrary source value r. -/
def randint (a b r : Nat) : Nat := a + r % (b - a + 1)

/-- Model of Python random.choice over a nonempty string pool: the element at
an arbitrary in-range index. -/
def choice (xs : List String) (r : Nat) : String := xs.getD (r % xs.length) ""

/-- JSON-like values, enough to embed the dict literals the scripts build. -/
inductive JValue : Type where
  | str : String → JValue
  | num : Nat → JValue
  | obj : List (String × JValue) → JValue

/-- Field lookup on an object value. -/
def JValue.getField : JValue → String → Option JValue
  | .obj fields, k => List.lookup k fields
  | _, _ => none

/-- Top-level key list of an object value, in construction order. -/
def JValue.keys : JValue → List String
  | .obj fields => fields.map Prod.fst
  | _ => []

/-- Key list of the metadata sub-object of a record. -/
def metadataKeys (j : JValue) : List String :=
  match j.getField "metadata" with
  | some m => m.keys
  | none => []

/-- The metadata sub-object of a record. -/
def metadataOf (j : JValue) : JValue :=
  match j.getField "metadata" with
  | some m => m
  | none => .obj []

/-- Transport-level unreachability exceptions that requests.post can raise in
these scripts (no timeout argument is passed, so every pre-response failure is
raised during the connection phase): connection refused, DNS resolution
failure, a connect-phase timeout, a reset before any response. In the requests
library each of these is a subclass of requests.exceptions.ConnectionError. -/
inductive TransportError : Type where
  | refused
  | dnsFailure
  | connectTimeout
  | resetBeforeResponse
deriving DecidableEq

/-- Whether the exception is an instance of requests.exceptions.ConnectionError,
the class named by the except clauses of both scripts; every modelled
transport-unreachability exception is. -/
def TransportError.isConnectionError : TransportError → Bool := fun _ => true

/-- Result of one requests.post call, as observed by the scripts: either an
HTTP response with a status code and a body, or a raised transport
exception. -/
inductive PostResult : Type where
  | response : Nat → String → PostResult
  | raised : TransportError → PostResult
deriving DecidableEq

/-- Whether the call produced a response with the accepted status code 202,
the condition response.status_code == 202 tested by both scripts. -/
def PostResult.is202 : PostResult → Bool
  | .response status _ => status == 202
  | .raised _ => false

/-- Whether the call raised an exception instead of returning a response. -/
def PostResult.isRaised : PostResult → Bool
  | .response _ _ => false
  | .raised _ => true

/-- The DispatchOutcome classification of one dispatch call, read off the
branch structure both scripts apply to a requests.post result: status 202 is
accepted with the batch size, any other status is rejected with status and
body, and a raised transport exception is a connection failure. -/
inductive DispatchOutcome : Type where
  | accepted : Nat → DispatchOutcome
  | rejected : Nat → String → DispatchOutcome
  | connectionFailure : TransportError → DispatchOutcome
deriving DecidableEq

/-- Classification of a requests.post result exactly as the scripts branch on
it. -/
def classifyOutcome (batchLen : Nat) : PostResult → DispatchOutcome
  | .response status body =>
      if status == 202 then .accepted batchLen else .rejected status body
  | .raised e => .connectionFailure e

/-- One decimal digit character, the ASCII digit of n % 10. -/
def decDigit (n : Nat) : Char := Char.ofNat (48 + n % 10)

/-- The zero-padded six digit rendering of the microsecond field, as produced
by the strftime directive %f. -/
def pad6 (u : Nat) : List Char :=
  [decDigit (u / 100000), decDigit (u / 10000), decDigit (u / 1000),
   decDigit (u / 100), decDigit (u / 10), decDigit u]

/-- Model of strftime on a UTC instant (sec whole seconds since the epoch, u
microseconds) with the format the scripts use: the calendar prefix rendering
%Y-%m-%dT%H:%M:%S is abstracted as a function cal of the whole seconds, and %f
is the zero-padded six digit microsecond field. -/
def strftimeChars (cal : Int → List Char) (sec : Int) (u : Nat) : List Char :=
  cal sec ++ '.' :: pad6 u

/-- The timestamp string both scripts build: the strftime rendering with its
last three characters sliced off, then a literal Z appended. -/
def pyTimestamp (cal : Int → List Char) (sec : Int) (u : Nat) : List Char :=
  (strftimeChars cal sec u).take ((strftimeChars cal sec u).length - 3) ++ ['Z']

/-- A trivial calendar-prefix rendering used to instantiate witnesses. -/
def calNil : Int → List Char := fun _ => []

namespace GenerateLogs

/-- Data pool SERVICES of generate_logs.py. -/
def SERVICES : List String :=
  ["auth-service", "payment-service", "notification-service", "user-service",
   "inventory-service", "shipping-service"]

/-- Data pool LEVELS of generate_logs.py. -/
def LEVELS : List String := ["INFO", "DEBUG", "WARNING", "ERROR"]

/-- Data pool MESSAGES of generate_logs.py. -/
def MESSAGES : List String :=
  ["User logged in successfully",
   "Payment processed with transaction id",
   "Critical database connection timeout error occurred",
   "Cache miss for user profile",
   "API request received from external gateway",
   "Authentication failed due to invalid token",
   "Transaction completed successfully",
   "Error processing request: NullPointerException",
   "Scheduled maintenance task started",
   "Dependency service unavailable: retry count exceeded"]

/-- Data pool REGIONS of generate_logs.py. -/
def REGIONS : List String :=
  ["us-east-1", "us-west-2", "eu-central-1", "ap-northeast-1"]

/-- Configured batch size of generate_logs.py. -/
def BATCH_SIZE : Nat := 500

/-- Configured total record count of generate_logs.py. -/
def TOTAL_LOGS : Nat := 10000

/-- The time range lookup of generate_logs.py: a dict from the four window
names to their lengths in seconds, queried with dict.get and the default
86400, parameterised by the configured TIME_RANGE string. -/
def get_time_range_seconds (TIME_RANGE : String) : Nat :=
  if TIME_RANGE = "last_hour" then 3600
  else if TIME_RANGE = "last_6_hours" then 21600
  else if TIME_RANGE = "last_24_hours" then 86400
  else if TIME_RANGE = "last_week" then 604800
  else 86400

/-- The randomness consumed by one generate_log_entry call: the raw source
values fed to each randint and choice call, and the uuid4-derived strings. -/
structure GenEnv : Type where
  r_offset : Nat
  r_service : Nat
  r_level : Nat
  r_message : Nat
  uuid_msg : String
  uuid_trace : String
  r_request : Nat
  r_region : Nat
  r_latency : Nat

/-- The record built by generate_log_entry of generate_logs.py: a timestamp
now - offset for an offset drawn by randint(0, max_offset), formatted by
strftime then sliced and suffixed with Z, and the dict literal with the
service, level, message, traceId and metadata fields. The current UTC instant
is nowSec whole seconds plus nowUsec microseconds; subtracting the whole-second
offset leaves the microsecond field unchanged. -/
def generate_log_entry (TIME_RANGE : String) (cal : Int → List Char)
    (nowSec : Int) (nowUsec : Nat) (g : GenEnv) : JValue :=
  let max_offset := get_time_range_seconds TIME_RANGE
  let time_offset := randint 0 max_offset g.r_offset
  let tsSec : Int := nowSec - time_offset
  let timestamp := String.mk (pyTimestamp cal tsSec nowUsec)
  .obj
    [("timestamp", .str timestamp),
     ("serviceId", .str (choice SERVICES g.r_service)),
     ("level", .str (choice LEVELS g.r_level)),
     ("message", .str (choice MESSAGES g.r_message ++ " - " ++ g.uuid_msg)),
     ("traceId", .str ("trace-" ++ g.uuid_trace)),
     ("metadata", .obj
       [("requestId", .str ("req-" ++ toString (randint 1000 9999 g.r_request))),
        ("region", .str (choice REGIONS g.r_region)),
        ("latency_ms", .num (randint 5 2000 g.r_latency)),
        ("version", .str "v1.0.2")])]

/-- The mutable state of the main loop of generate_logs.py. Records are
identified by their generation index; batch is the pending list, total_sent
the counter, calls the list of batches passed to requests.post so far, in
order. aborted models a ConnectionError having propagated out of the for loop
into the except clause; crashed models any other exception propagating out of
main uncaught. -/
structure BackfillState : Type where
  batch : List Nat
  total_sent : Nat
  calls : List (List Nat)
  aborted : Bool
  crashed : Bool
deriving DecidableEq

/-- The initial state of main: an empty batch and a zero counter. -/
def initState : BackfillState :=
  { batch := [], total_sent := 0, calls := [], aborted := false, crashed := false }

/-- One iteration of the for loop of main in generate_logs.py, processing the
record with generation index i: append it to the batch; if the batch has
reached BATCH_SIZE, call requests.post (the result of the k-th post call in
the run is post k), on a 202 response add the batch length to total_sent, on
any other response only log, and clear the batch in both cases; a raised
exception escapes the loop, caught by the except clause when it is a
ConnectionError (aborted) and uncaught otherwise (crashed). Once aborted or
crashed, nothing further executes. -/
def backfillStep (B : Nat) (post : Nat → PostResult) (s : BackfillState)
    (i : Nat) : BackfillState :=
  if s.aborted || s.crashed then s
  else
    let batch := s.batch ++ [i]
    if B ≤ batch.length then
      match post s.calls.length with
      | .response status _ =>
          if status == 202 then
            { batch := [], total_sent := s.total_sent + batch.length,
              calls := s.calls ++ [batch], aborted := false, crashed := false }
          else
            { batch := [], total_sent := s.total_sent,
              calls := s.calls ++ [batch], aborted := false, crashed := false }
      | .raised e =>
          if e.isConnectionError then
            { s with batch := batch, calls := s.calls ++ [batch], aborted := true }
          else
            { s with batch := batch, calls := s.calls ++ [batch], crashed := true }
    else { s with batch := batch }

/-- The final partial flush of main in generate_logs.py: after the for loop,
if the batch is nonempty it is posted once more with the same outcome
handling (the batch variable is not cleared afterwards, mirroring the
source). Skipped when an exception already escaped the loop. -/
def backfillFinish (post : Nat → PostResult) (s : BackfillState) :
    BackfillState :=
  if s.aborted || s.crashed then s
  else if s.batch = [] then s
  else
    match post s.calls.length with
    | .response status _ =>
        if status == 202 then
          { s with total_sent := s.total_sent + s.batch.length,
                   calls := s.calls ++ [s.batch] }
        else { s with calls := s.calls ++ [s.batch] }
    | .raised e =>
        if e.isConnectionError then
          { s with calls := s.calls ++ [s.batch], aborted := true }
        else { s with calls := s.calls ++ [s.batch], crashed := true }

/-- The state after the first n iterations of the for loop of main. -/
def backfillLoop (B : Nat) (post : Nat → PostResult) (n : Nat) : BackfillState :=
  (List.range n).foldl (backfillStep B post) initState

/-- The whole backfill run of main in generate_logs.py, generalised over the
total count T and batch size B: the for loop over T records followed by the
final partial flush. -/
def backfillRun (T B : Nat) (post : Nat → PostResult) : BackfillState :=
  backfillFinish post (backfillLoop B post T)

/-- Environment where every post call returns an accepted 202 response. -/
def post202 : Nat → PostResult := fun _ => .response 202 ""

/-- Environment where the first two post calls are accepted and every later
one raises a connection error. -/
def postFailThird : Nat → PostResult :=
  fun k => if k < 2 then .response 202 "" else .raised .refused

/-- A fixed randomness environment used to instantiate witnesses. -/
def genEnv0 : GenEnv :=
  { r_offset := 0, r_service := 0, r_level := 0, r_message := 0,
    uuid_msg := "", uuid_trace := "", r_request := 0, r_region := 0,
    r_latency := 0 }

end GenerateLogs

namespace StreamLogs

/-- Data pool SERVICES of stream_logs.py. -/
def SERVICES : List String :=
  ["auth-service", "payment-service", "notification-service", "user-service",
   "inventory-service", "shipping-service"]

/-- Data pool LEVELS of stream_logs.py. -/
def LEVELS : List String := ["INFO", "DEBUG", "WARNING", "ERROR"]

/-- Data pool MESSAGES of stream_logs.py. -/
def MESSAGES : List String :=
  ["User logged in successfully",
   "Payment processed with transaction id",
   "Critical database connection timeout error occurred",
   "Cache miss for user profile",
   "API request received from external gateway",
   "Authentication failed due to invalid token",
   "Transaction completed successfully",
   "Error processing request: NullPointerException",
   "Scheduled maintenance task started",
   "Dependency service unavailable: retry count exceeded"]

/-- Data pool REGIONS of stream_logs.py. -/
def REGIONS : List String :=
  ["us-east-1", "us-west-2", "eu-central-1", "ap-northeast-1"]

/-- Configured target rate of stream_logs.py. -/
def LOGS_PER_SECOND : Nat := 1000

/-- The environment consumed by one generate_live_log_entry call: the current
UTC instant at the moment of generation (whole seconds and microseconds), the
calendar rendering function of strftime, the raw source values fed to each
randint and choice call, and the uuid4-derived strings. -/
structure LiveEnv : Type where
  cal : Int → List Char
  nowSec : Int
  nowUsec : Nat
  r_service : Nat
  r_level : Nat
  r_message : Nat
  uuid_msg : String
  uuid_trace : String
  r_request : Nat
  r_region : Nat
  r_latency : Nat

/-- The record built by generate_live_log_entry of stream_logs.py: the
timestamp is the current instant itself, formatted by strftime then sliced
and suffixed with Z, followed by the same dict literal fields as the backfill
generator. -/
def generate_live_log_entry (e : LiveEnv) : JValue :=
  let timestamp := String.mk (pyTimestamp e.cal e.nowSec e.nowUsec)
  .obj
    [("timestamp", .str timestamp),
     ("serviceId", .str (choice SERVICES e.r_service)),
     ("level", .str (choice LEVELS e.r_level)),
     ("message", .str (choice MESSAGES e.r_message ++ " - " ++ e.uuid_msg)),
     ("traceId", .str ("trace-" ++ e.uuid_trace)),
     ("metadata", .obj
       [("requestId", .str ("req-" ++ toString (randint 1000 9999 e.r_request))),
        ("region", .str (choice REGIONS e.r_region)),
        ("latency_ms", .num (randint 5 2000 e.r_latency)),
        ("version", .str "v1.0.2")])]

/-- The mutable state of the main loop of stream_logs.py: batch_count is the
counter incremented on each 202 response, cyclesRun the number of loop
iterations fully executed, calls the batches passed to requests.post in
order, sleeps the argument passed to time.sleep on each completed cycle.
crashed models an exception other than ConnectionError propagating out of the
inner try and ending the loop uncaught. -/
structure StreamState : Type where
  batch_count : Nat
  cyclesRun : Nat
  calls : List (List JValue)
  sleeps : List ℚ
  crashed : Bool

/-- The initial state of main in stream_logs.py. -/
def streamInit : StreamState :=
  { batch_count := 0, cyclesRun := 0, calls := [], sleeps := [], crashed := false }

/-- One cycle of the while loop of main in stream_logs.py: build a batch of
LOGS_PER_SECOND (here rate) records with generate_live_log_entry, call
requests.post on it; on a 202 response increment batch_count, on any other
response only log; a raised ConnectionError is caught by the inner except
clause and only logged, any other raised exception ends the loop uncaught.
Unless the loop ended, measure the elapsed wall-clock time of the cycle and
sleep max(0, 1 - elapsed). -/
def streamCycle (rate : Nat) (env : Nat → LiveEnv) (outcome : PostResult)
    (elapsed : ℚ) (s : StreamState) : StreamState :=
  if s.crashed then s
  else
    let batch := (List.range rate).map (fun i => generate_live_log_entry (env i))
    match outcome with
    | .response status _ =>
        let bc := if status == 202 then s.batch_count + 1 else s.batch_count
        { batch_count := bc, cyclesRun := s.cyclesRun + 1,
          calls := s.calls ++ [batch],
          sleeps := s.sleeps ++ [max 0 (1 - elapsed)], crashed := false }
    | .raised e =>
        if e.isConnectionError then
          { s with cyclesRun := s.cyclesRun + 1, calls := s.calls ++ [batch],
                   sleeps := s.sleeps ++ [max 0 (1 - elapsed)] }
        else { s with calls := s.calls ++ [batch], crashed := true }

/-- The stream run of main in stream_logs.py over its first n cycles (the
while loop runs until an external KeyboardInterrupt, modelled by observing the
state after n cycles): cycle k consumes the randomness environment env k, the
post result outcome k and the measured wall-clock time elapsed k. -/
def streamRun (rate n : Nat) (env : Nat → Nat → LiveEnv)
    (outcome : Nat → PostResult) (elapsed : Nat → ℚ) : StreamState :=
  (List.range n).foldl
    (fun s k => streamCycle rate (env k) (outcome k) (elapsed k) s) streamInit

/-- A fixed live-record environment for witnesses. -/
def liveEnv0 : LiveEnv :=
  { cal := fun _ => [], nowSec := 0, nowUsec := 0, r_service := 0, r_level := 0,
    r_message := 0, uuid_msg := "", uuid_trace := "", r_request := 0,
    r_region := 0, r_latency := 0 }

/-- A constant live-environment sequence for witnesses. -/
def liveEnvSeq : Nat → Nat → LiveEnv := fun _ _ => liveEnv0

/-- Outcome sequence where every post call is accepted. -/
def streamPost202 : Nat → PostResult := fun _ => .response 202 ""

/-- An elapsed-time sequence exceeding the quantum on every cycle. -/
def elapsedTwo : Nat → ℚ := fun _ => 2

end StreamLogs

namespace GenerateLogs

/-- Division and remainder by B after one more record, when the batch just
reached size B. -/
lemma succ_div_mod_full (B n : Nat) (h : n % B + 1 = B) :
    (n + 1) / B = n / B + 1 ∧ (n + 1) % B = 0 := by
  have hB : 0 < B := by omega
  have hn : B * (n / B) + n % B = n := Nat.div_add_mod n B
  have h1 : n + 1 = B * (n / B) + B := by omega
  rw [← Nat.mul_succ] at h1
  exact ⟨by rw [h1, Nat.mul_div_cancel_left _ hB], by rw [h1, Nat.mul_mod_right]⟩

/-- Division and remainder by B after one more record, when the batch is still
below size B. -/
lemma succ_div_mod_small (B n : Nat) (h : n % B + 1 < B) :
    (n + 1) / B = n / B ∧ (n + 1) % B = n % B + 1 := by
  have hB : 0 < B := by omega
  have hn : B * (n / B) + n % B = n := Nat.div_add_mod n B
  have h1 : n + 1 = B * (n / B) + (n % B + 1) := by omega
  constructor
  · rw [h1, Nat.mul_add_div hB, Nat.div_eq_of_lt h, Nat.add_zero]
  · rw [h1, Nat.mul_add_mod, Nat.mod_eq_of_lt h]

/-- A finished (aborted or crashed) state absorbs every further iteration. -/
lemma backfillStep_frozen (B : Nat) (post : Nat → PostResult) (s : BackfillState)
    (i : Nat) (h : s.aborted = true ∨ s.crashed = true) :
    backfillStep B post s i = s := by
  rcases h with h | h <;> simp [backfillStep, h]

/-- An iteration that leaves the batch below BATCH_SIZE only appends. -/
lemma backfillStep_append (B : Nat) (post : Nat → PostResult) (s : BackfillState)
    (i : Nat) (ha : s.aborted = false) (hc : s.crashed = false)
    (hlt : s.batch.length + 1 < B) :
    backfillStep B post s i = { s with batch := s.batch ++ [i] } := by
  have hnle : ¬ B ≤ s.batch.length + 1 := by omega
  simp [backfillStep, ha, hc, hnle]

/-- An iteration that fills the batch and receives a response dispatches the
batch, adds its size to total_sent exactly when the status is 202, and clears
the batch in both cases. -/
lemma backfillStep_response (B : Nat) (post : Nat → PostResult)
    (s : BackfillState) (i status : Nat) (body : String)
    (ha : s.aborted = false) (hc : s.crashed = false)
    (hfill : B ≤ s.batch.length + 1)
    (hp : post s.calls.length = .response status body) :
    backfillStep B post s i =
      { batch := [],
        total_sent := s.total_sent +
          (if status == 202 then (s.batch ++ [i]).length else 0),
        calls := s.calls ++ [s.batch ++ [i]],
        aborted := false, crashed := false } := by
  by_cases h2 : status = 202
  · subst h2
    simp [backfillStep, ha, hc, hfill, hp]
  · have hbeq : (status == 202) = false := by simp [h2]
    simp [backfillStep, ha, hc, hfill, hp, hbeq]

/-- An iteration that fills the batch and has the post call raise a transport
exception: the batch is passed to the failing call, the exception is a
ConnectionError, and the run aborts. -/
lemma backfillStep_raised (B : Nat) (post : Nat → PostResult)
    (s : BackfillState) (i : Nat) (e : TransportError)
    (ha : s.aborted = false) (hc : s.crashed = false)
    (hfill : B ≤ s.batch.length + 1)
    (hp : post s.calls.length = .raised e) :
    backfillStep B post s i =
      { s with batch := s.batch ++ [i], calls := s.calls ++ [s.batch ++ [i]],
               aborted := true } := by
  simp [backfillStep, ha, hc, hfill, hp, TransportError.isConnectionError]

/-- Unfolding one iteration of the backfill loop. -/
lemma backfillLoop_succ (B : Nat) (post : Nat → PostResult) (n : Nat) :
    backfillLoop B post (n + 1) =
      backfillStep B post (backfillLoop B post n) n := by
  unfold backfillLoop
  rw [List.range_succ, List.foldl_append, List.foldl_cons, List.foldl_nil]

/-- The final flush does nothing when an exception already escaped the loop. -/
lemma backfillFinish_frozen (post : Nat → PostResult) (s : BackfillState)
    (h : s.aborted = true ∨ s.crashed = true) :
    backfillFinish post s = s := by
  rcases h with h | h <;> simp [backfillFinish, h]

/-- The final flush does nothing when the batch is empty. -/
lemma backfillFinish_empty (post : Nat → PostResult) (s : BackfillState)
    (ha : s.aborted = false) (hc : s.crashed = false) (hb : s.batch = []) :
    backfillFinish post s = s := by
  simp [backfillFinish, ha, hc, hb]

/-- The final flush of a nonempty batch that receives a response dispatches it
once, adding its size to total_sent exactly when the status is 202. -/
lemma backfillFinish_response (post : Nat → PostResult) (s : BackfillState)
    (status : Nat) (body : String) (ha : s.aborted = false)
    (hc : s.crashed = false) (hb : s.batch ≠ [])
    (hp : post s.calls.length = .response status body) :
    backfillFinish post s =
      { s with total_sent := s.total_sent +
                 (if status == 202 then s.batch.length else 0),
               calls := s.calls ++ [s.batch] } := by
  by_cases h2 : status = 202
  · subst h2
    simp [backfillFinish, ha, hc, hb, hp]
  · have hbeq : (status == 202) = false := by simp [h2]
    simp [backfillFinish, ha, hc, hb, hp, hbeq]

/-- The final flush of a nonempty batch whose post call raises: the batch is
passed to the failing call, and the run aborts. -/
lemma backfillFinish_raised (post : Nat → PostResult) (s : BackfillState)
    (e : TransportError) (ha : s.aborted = false) (hc : s.crashed = false)
    (hb : s.batch ≠ []) (hp : post s.calls.length = .raised e) :
    backfillFinish post s =
      { s with calls := s.calls ++ [s.batch], aborted := true } := by
  simp [backfillFinish, ha, hc, hb, hp, TransportError.isConnectionError]

/-- Ceiling division written with the truncating division of the loop. -/
lemma ceil_div_eq (B T : Nat) (hB : 0 < B) :
    (T + B - 1) / B = T / B + (if T % B = 0 then 0 else 1) := by
  have hn : B * (T / B) + T % B = T := Nat.div_add_mod T B
  by_cases h : T % B = 0
  · have h1 : T + B - 1 = B * (T / B) + (B - 1) := by omega
    have h2 : (B - 1) / B = 0 := Nat.div_eq_of_lt (by omega)
    rw [h1, Nat.mul_add_div hB, h2]
    simp [h]
  · have hmod : T % B < B := Nat.mod_lt T hB
    have h1 : T + B - 1 = B * (T / B + 1) + (T % B - 1) := by
      rw [Nat.mul_succ]
      omega
    have h2 : (T % B - 1) / B = 0 := Nat.div_eq_of_lt (by omega)
    rw [h1, Nat.mul_add_div hB, h2]
    simp [h]

/-- Invariant of the backfill for loop while no post call has raised: the run
is neither aborted nor crashed, the pending batch holds n % B records, the
n / B dispatched batches all hold exactly B records, and total_sent is B times
the number of accepted (status 202) dispatches. -/
lemma backfillLoop_ok (B : Nat) (hB : 0 < B) (post : Nat → PostResult) (n : Nat)
    (hpost : ∀ k, k < n / B → (post k).isRaised = false) :
    (backfillLoop B post n).aborted = false ∧
    (backfillLoop B post n).crashed = false ∧
    (backfillLoop B post n).batch.length = n % B ∧
    (backfillLoop B post n).calls.map List.length = List.replicate (n / B) B ∧
    (backfillLoop B post n).total_sent =
      B * (List.range (n / B)).countP (fun k => (post k).is202) := by
  induction n with
  | zero => simp [backfillLoop, initState]
  | succ n ih =>
    have hmono : n / B ≤ (n + 1) / B := Nat.div_le_div_right (Nat.le_succ n)
    obtain ⟨ha, hc, hbl, hcl, hts⟩ :=
      ih (fun k hk => hpost k (lt_of_lt_of_le hk hmono))
    have hclen : (backfillLoop B post n).calls.length = n / B := by
      have := congrArg List.length hcl
      simpa using this
    have hmod : n % B < B := Nat.mod_lt n hB
    rw [backfillLoop_succ]
    set s := backfillLoop B post n with hs
    by_cases hfull : n % B + 1 = B
    · obtain ⟨hdiv, hmod1⟩ := succ_div_mod_full B n hfull
      have hfill : B ≤ s.batch.length + 1 := by omega
      have hcall : n / B < (n + 1) / B := by omega
      have hnr := hpost (n / B) hcall
      cases hp : post (n / B) with
      | raised e =>
        rw [hp] at hnr
        simp [PostResult.isRaised] at hnr
      | response status body =>
        have hp' : post s.calls.length = .response status body := by
          rw [hclen]
          exact hp
        rw [backfillStep_response B post s n status body ha hc hfill hp']
        have hlen : (s.batch ++ [n]).length = B := by
          simp only [List.length_append, List.length_singleton, hbl]
          omega
        refine ⟨rfl, rfl, by simp [hmod1], ?_, ?_⟩
        · rw [List.map_append, hcl, hdiv]
          simp [hlen, List.replicate_succ']
        · rw [hdiv, List.range_succ, List.countP_append, hts]
          have hcp : List.countP (fun k => (post k).is202) [n / B] =
              if status == 202 then 1 else 0 := by
            simp [List.countP_cons, hp, PostResult.is202]
          rw [hcp, hlen]
          by_cases h2 : status = 202 <;> simp [h2, Nat.mul_add]
    · have hlt : n % B + 1 < B := by omega
      obtain ⟨hdiv, hmod1⟩ := succ_div_mod_small B n hlt
      rw [backfillStep_append B post s n ha hc (by omega)]
      refine ⟨ha, hc, ?_, ?_, ?_⟩
      · simp only [List.length_append, List.length_singleton, hbl, hmod1]
      · rw [hdiv]
        exact hcl
      · rw [hdiv]
        exact hts

/-- Sizes of the dispatched batches over a whole failure-free backfill run:
T / B full batches of exactly B records, and one final batch of T % B records
when B does not divide T. -/
lemma backfillRun_sizes (T B : Nat) (hB : 0 < B) (post : Nat → PostResult)
    (hpost : ∀ k, (post k).isRaised = false) :
    (backfillRun T B post).calls.map List.length =
      List.replicate (T / B) B ++ (if T % B = 0 then [] else [T % B]) := by
  obtain ⟨ha, hc, hbl, hcl, -⟩ := backfillLoop_ok B hB post T (fun k _ => hpost k)
  by_cases h0 : T % B = 0
  · have hb : (backfillLoop B post T).batch = [] := by
      rw [← List.length_eq_zero, hbl, h0]
    rw [backfillRun, backfillFinish_empty post _ ha hc hb, hcl]
    simp [h0]
  · have hb : (backfillLoop B post T).batch ≠ [] := by
      intro hh
      rw [hh] at hbl
      simp at hbl
      omega
    have hclen : (backfillLoop B post T).calls.length = T / B := by
      have := congrArg List.length hcl
      simpa using this
    cases hp : post (T / B) with
    | raised e =>
      have hnr := hpost (T / B)
      rw [hp] at hnr
      simp [PostResult.isRaised] at hnr
    | response status body =>
      have hp' : post (backfillLoop B post T).calls.length =
          .response status body := by
        rw [hclen]
        exact hp
      rw [backfillRun, backfillFinish_response post _ status body ha hc hb hp']
      simp only [List.map_append, hcl, List.map_cons, List.map_nil, hbl]
      simp [h0]

/-- Claim C1: in backfill mode, for every batch size B > 0 and total count
T ≥ 0, a failure-free run performs exactly ceil(T / B) dispatch calls; every
call except possibly the last carries exactly B records, and the last call
carries T mod B records, or B when B divides T evenly, the partial batch being
flushed once after the generation loop. -/
theorem backfill_dispatch_count (B T : Nat) (hB : 0 < B)
    (post : Nat → PostResult) (hpost : ∀ k, (post k).isRaised = false) :
    (backfillRun T B post).calls.length = (T + B - 1) / B ∧
    (∀ c ∈ (backfillRun T B post).calls.dropLast, c.length = B) ∧
    (∀ c, (backfillRun T B post).calls.getLast? = some c →
      c.length = if T % B = 0 then B else T % B) := by
  have hsz := backfillRun_sizes T B hB post hpost
  set L := (backfillRun T B post).calls with hL
  have hlen : L.length = T / B + (if T % B = 0 then 0 else 1) := by
    have hl := congrArg List.length hsz
    simp only [List.length_map, List.length_append, List.length_replicate] at hl
    rw [hl]
    by_cases h0 : T % B = 0 <;> simp [h0]
  by_cases h0 : T % B = 0
  · rw [if_pos h0, List.append_nil] at hsz
    refine ⟨?_, ?_, ?_⟩
    · rw [hlen, ceil_div_eq B T hB, if_pos h0]
    · intro c hc
      have hmem : c.length ∈ L.map List.length :=
        List.mem_map_of_mem _ (List.mem_of_mem_dropLast hc)
      rw [hsz] at hmem
      exact List.eq_of_mem_replicate hmem
    · intro c hc
      rw [if_pos h0]
      have hmem : c.length ∈ L.map List.length :=
        List.mem_map_of_mem _ (List.mem_of_mem_getLast? hc)
      rw [hsz] at hmem
      exact List.eq_of_mem_replicate hmem
  · rw [if_neg h0] at hsz
    refine ⟨?_, ?_, ?_⟩
    · rw [hlen, ceil_div_eq B T hB, if_neg h0]
    · intro c hc
      have hdl : L.dropLast.map List.length = List.replicate (T / B) B := by
        rw [List.map_dropLast, hsz, List.dropLast_concat]
      have hmem : c.length ∈ L.dropLast.map List.length :=
        List.mem_map_of_mem _ hc
      rw [hdl] at hmem
      exact List.eq_of_mem_replicate hmem
    · intro c hc
      have hlast : L.getLast?.map List.length = some (T % B) := by
        rw [← List.getLast?_map, hsz, List.getLast?_concat]
      rw [hc, Option.map_some'] at hlast
      rw [if_neg h0]
      exact Option.some_injective _ hlast

/-- Witness for backfill_dispatch_count at B = 2, T = 5: three dispatch calls,
the first two of size 2, the last of size 5 mod 2 = 1. -/
theorem backfill_dispatch_count_witness :
    (backfillRun 5 2 post202).calls.length = (5 + 2 - 1) / 2 ∧
    (∀ c ∈ (backfillRun 5 2 post202).calls.dropLast, c.length = 2) ∧
    (∀ c, (backfillRun 5 2 post202).calls.getLast? = some c →
      c.length = if 5 % 2 = 0 then 2 else 5 % 2) :=
  backfill_dispatch_count 2 5 (by decide) post202 (fun _ => rfl)

/-- Iterating from a state out of which an exception already escaped leaves it
unchanged: nothing executes after the loop is abandoned. -/
lemma backfillFoldl_frozen (B : Nat) (post : Nat → PostResult)
    (s : BackfillState) (l : List Nat)
    (h : s.aborted = true ∨ s.crashed = true) :
    l.foldl (backfillStep B post) s = s := by
  induction l with
  | nil => rfl
  | cons x xs ih =>
    rw [List.foldl_cons, backfillStep_frozen B post s x h]
    exact ih

/-- Splitting the backfill loop at an intermediate record count. -/
lemma backfillLoop_add (B : Nat) (post : Nat → PostResult) (a m : Nat) :
    backfillLoop B post (a + m) =
      ((List.range m).map (fun x => a + x)).foldl (backfillStep B post)
        (backfillLoop B post a) := by
  unfold backfillLoop
  rw [List.range_add, List.foldl_append]

/-- Claim C2: in backfill mode, a ConnectionFailure on a dispatch transitions
the run to Aborted and terminates it immediately: when the first j dispatches
are accepted and the (j+1)-st raises (the failure on batch j+1), total_sent is
j*B at exit and exactly j+1 post calls were made in the whole run, the failing
one included — no further dispatch occurs, neither for the remaining full
batches nor for the trailing partial batch. -/
theorem backfill_abort_on_connection_failure (B T j : Nat) (hB : 0 < B)
    (hT : (j + 1) * B ≤ T) (post : Nat → PostResult)
    (hacc : ∀ k, k < j → ∃ body, post k = .response 202 body)
    (hfail : ∃ e, post j = .raised e) :
    (backfillRun T B post).aborted = true ∧
    (backfillRun T B post).total_sent = j * B ∧
    (backfillRun T B post).calls.length = j + 1 := by
  obtain ⟨e, he⟩ := hfail
  set n0 := j * B + (B - 1) with hn0
  have hdiv : n0 / B = j := by
    rw [hn0, Nat.mul_comm j B, Nat.mul_add_div hB, Nat.div_eq_of_lt (by omega),
      Nat.add_zero]
  have hmod : n0 % B = B - 1 := by
    rw [hn0, Nat.mul_comm j B, Nat.mul_add_mod, Nat.mod_eq_of_lt (by omega)]
  have hpost0 : ∀ k, k < n0 / B → (post k).isRaised = false := by
    intro k hk
    rw [hdiv] at hk
    obtain ⟨body, hbk⟩ := hacc k hk
    rw [hbk]
    rfl
  obtain ⟨ha, hc, hbl, hcl, hts⟩ := backfillLoop_ok B hB post n0 hpost0
  rw [hdiv] at hcl hts
  rw [hmod] at hbl
  have hclen : (backfillLoop B post n0).calls.length = j := by
    have := congrArg List.length hcl
    simpa using this
  have hcnt : (List.range j).countP (fun k => (post k).is202) = j := by
    have hall : ∀ a ∈ List.range j, ((post a).is202) = true := by
      intro a haj
      obtain ⟨body, hbk⟩ := hacc a (List.mem_range.mp haj)
      rw [hbk]
      rfl
    have := List.countP_eq_length.mpr hall
    rw [List.length_range] at this
    exact this
  have hp' : post (backfillLoop B post n0).calls.length = .raised e := by
    rw [hclen]
    exact he
  have hstep := backfillStep_raised B post (backfillLoop B post n0) n0 e ha hc
    (by omega) hp'
  have hs1 : backfillLoop B post (n0 + 1) =
      { backfillLoop B post n0 with
          batch := (backfillLoop B post n0).batch ++ [n0],
          calls := (backfillLoop B post n0).calls ++
            [(backfillLoop B post n0).batch ++ [n0]],
          aborted := true } := by
    rw [backfillLoop_succ, hstep]
  have hmul : (j + 1) * B = j * B + B := by ring
  have hfrozen : backfillLoop B post T = backfillLoop B post (n0 + 1) := by
    have hle : n0 + 1 ≤ T := by omega
    have hTeq : T = (n0 + 1) + (T - (n0 + 1)) := by omega
    rw [hTeq, backfillLoop_add B post (n0 + 1) (T - (n0 + 1))]
    apply backfillFoldl_frozen
    left
    rw [hs1]
  have hrun : backfillRun T B post = backfillLoop B post (n0 + 1) := by
    rw [backfillRun, hfrozen]
    apply backfillFinish_frozen
    left
    rw [hs1]
  rw [hrun, hs1]
  refine ⟨rfl, ?_, ?_⟩
  · show (backfillLoop B post n0).total_sent = j * B
    rw [hts, hcnt, Nat.mul_comm]
  · show ((backfillLoop B post n0).calls ++
      [(backfillLoop B post n0).batch ++ [n0]]).length = j + 1
    rw [List.length_append, hclen]
    rfl

/-- Witness for backfill_abort_on_connection_failure at B = 1, T = 3, j = 2:
the run aborts on the third dispatch with total_sent = 2. -/
theorem backfill_abort_on_connection_failure_witness :
    (backfillRun 3 1 postFailThird).aborted = true ∧
    (backfillRun 3 1 postFailThird).total_sent = 2 * 1 ∧
    (backfillRun 3 1 postFailThird).calls.length = 2 + 1 :=
  backfill_abort_on_connection_failure 1 3 2 (by decide) (by decide) postFailThird
    (fun k hk => ⟨"", by simp [postFailThird, hk]⟩)
    ⟨.refused, by simp [postFailThird]⟩

/-- At every iteration boundary of the backfill loop the pending batch is
strictly below B while the run is active, and never above B at all. -/
lemma backfillLoop_batch_le (B : Nat) (hB : 0 < B) (post : Nat → PostResult)
    (n : Nat) :
    ((backfillLoop B post n).aborted = false →
      (backfillLoop B post n).batch.length < B) ∧
    (backfillLoop B post n).batch.length ≤ B := by
  induction n with
  | zero =>
    refine ⟨fun _ => ?_, ?_⟩ <;> simp [backfillLoop, initState] <;> omega
  | succ n ih =>
    rw [backfillLoop_succ]
    set s := backfillLoop B post n with hs
    cases habort : s.aborted with
    | true =>
      rw [backfillStep_frozen B post s n (Or.inl habort)]
      exact ih
    | false =>
      cases hcrash : s.crashed with
      | true =>
        rw [backfillStep_frozen B post s n (Or.inr hcrash)]
        exact ih
      | false =>
        have hlt : s.batch.length < B := ih.1 habort
        by_cases hfill : B ≤ s.batch.length + 1
        · cases hp : post s.calls.length with
          | response status body =>
            rw [backfillStep_response B post s n status body habort hcrash hfill hp]
            refine ⟨fun _ => ?_, ?_⟩
            · simpa using hB
            · simp only [List.length_nil]
              omega
          | raised e =>
            rw [backfillStep_raised B post s n e habort hcrash hfill hp]
            refine ⟨fun hfalse => ?_, ?_⟩
            · simp at hfalse
            · simp only [List.length_append, List.length_singleton]
              omega
        · rw [backfillStep_append B post s n habort hcrash (by omega)]
          refine ⟨fun _ => ?_, ?_⟩ <;>
            simp only [List.length_append, List.length_singleton] <;> omega

/-- The records dispatched so far, together with the pending batch while the
loop is active, are exactly the generation indices 0, 1, ..., m - 1 in order,
for m the number of iterations that executed. -/
lemma backfillLoop_flatten (B : Nat) (post : Nat → PostResult) (n : Nat) :
    ∃ m, (backfillLoop B post n).calls.flatten ++
        (if ((backfillLoop B post n).aborted || (backfillLoop B post n).crashed)
            = true
          then [] else (backfillLoop B post n).batch) = List.range m ∧
      (((backfillLoop B post n).aborted || (backfillLoop B post n).crashed)
          = false → m = n) := by
  induction n with
  | zero => exact ⟨0, by simp [backfillLoop, initState], fun _ => rfl⟩
  | succ n ih =>
    obtain ⟨m, hm, hmn⟩ := ih
    rw [backfillLoop_succ]
    set s := backfillLoop B post n with hs
    cases habort : s.aborted with
    | true =>
      rw [backfillStep_frozen B post s n (Or.inl habort)]
      rw [habort] at hm ⊢
      refine ⟨m, hm, fun hcon => ?_⟩
      simp at hcon
    | false =>
      cases hcrash : s.crashed with
      | true =>
        rw [backfillStep_frozen B post s n (Or.inr hcrash)]
        rw [hcrash] at hm ⊢
        refine ⟨m, hm, fun hcon => ?_⟩
        simp at hcon
      | false =>
        rw [habort, hcrash] at hm hmn
        simp only [Bool.or_self, Bool.false_eq_true, if_false] at hm
        have hmn' : m = n := hmn rfl
        rw [hmn'] at hm
        by_cases hfill : B ≤ s.batch.length + 1
        · cases hp : post s.calls.length with
          | response status body =>
            rw [backfillStep_response B post s n status body habort hcrash hfill hp]
            refine ⟨n + 1, ?_, fun _ => rfl⟩
            simp only [List.flatten_append, List.flatten_cons, List.flatten_nil,
              List.append_nil, Bool.or_self, Bool.false_eq_true, if_false]
            rw [← List.append_assoc, hm, List.range_succ]
          | raised e =>
            rw [backfillStep_raised B post s n e habort hcrash hfill hp]
            refine ⟨n + 1, ?_, fun hcon => ?_⟩
            · simp only [List.flatten_append, List.flatten_cons, List.flatten_nil,
                List.append_nil, Bool.true_or, if_pos rfl]
              rw [← List.append_assoc, hm, List.range_succ]
              simp
            · simp at hcon
        · rw [backfillStep_append B post s n habort hcrash (by omega)]
          refine ⟨n + 1, ?_, fun _ => rfl⟩
          simp only [habort, hcrash, Bool.or_self, Bool.false_eq_true, if_false]
          rw [← List.append_assoc, hm, List.range_succ]

/-- Over a whole backfill run, whatever the post outcomes, the records passed
to dispatch calls form an initial segment of the generation indices. -/
lemma backfillRun_flatten (T B : Nat) (post : Nat → PostResult) :
    ∃ m, (backfillRun T B post).calls.flatten = List.range m := by
  obtain ⟨m, hm, -⟩ := backfillLoop_flatten B post T
  set s := backfillLoop B post T with hs
  refine ⟨m, ?_⟩
  cases habort : s.aborted with
  | true =>
    rw [backfillRun, ← hs, backfillFinish_frozen post s (Or.inl habort)]
    rw [habort] at hm
    simpa using hm
  | false =>
    cases hcrash : s.crashed with
    | true =>
      rw [backfillRun, ← hs, backfillFinish_frozen post s (Or.inr hcrash)]
      rw [hcrash] at hm
      simpa using hm
    | false =>
      rw [habort, hcrash] at hm
      simp only [Bool.or_self, Bool.false_eq_true, if_false] at hm
      by_cases hb : s.batch = []
      · rw [backfillRun, ← hs, backfillFinish_empty post s habort hcrash hb]
        rw [hb, List.append_nil] at hm
        exact hm
      · cases hp : post s.calls.length with
        | response status body =>
          rw [backfillRun, ← hs,
            backfillFinish_response post s status body habort hcrash hb hp]
          simp only [List.flatten_append, List.flatten_cons, List.flatten_nil,
            List.append_nil]
          exact hm
        | raised e =>
          rw [backfillRun, ← hs,
            backfillFinish_raised post s e habort hcrash hb hp]
          simp only [List.flatten_append, List.flatten_cons, List.flatten_nil,
            List.append_nil]
          exact hm

/-- Claim C9: in the backfill loop, the pending batch length never exceeds
BATCH_SIZE at any iteration boundary; an iteration that dispatches and
receives a response (accepted or rejected alike) clears the batch; and across
a whole run each generated record is included in at most one dispatch call
(the records sent, concatenated over all calls, are pairwise distinct). -/
theorem backfill_batch_invariant (B T : Nat) (hB : 0 < B)
    (post : Nat → PostResult) :
    (∀ n, n ≤ T → (backfillLoop B post n).batch.length ≤ B) ∧
    (∀ s : BackfillState, ∀ i status body, s.aborted = false →
      s.crashed = false → B ≤ s.batch.length + 1 →
      post s.calls.length = .response status body →
      (backfillStep B post s i).batch = []) ∧
    (backfillRun T B post).calls.flatten.Nodup := by
  refine ⟨fun n _ => (backfillLoop_batch_le B hB post n).2, ?_, ?_⟩
  · intro s i status body ha hc hfill hp
    rw [backfillStep_response B post s i status body ha hc hfill hp]
  · obtain ⟨m, hm⟩ := backfillRun_flatten T B post
    rw [hm]
    exact List.nodup_range m

/-- Witness for backfill_batch_invariant at B = 2, T = 5 with accepted posts,
and for the clearing conjunct at a concrete one-record state. -/
theorem backfill_batch_invariant_witness :
    (backfillLoop 2 post202 3).batch.length ≤ 2 ∧
    (backfillStep 2 post202
      { batch := [0], total_sent := 0, calls := [], aborted := false,
        crashed := false } 1).batch = [] ∧
    (backfillRun 5 2 post202).calls.flatten.Nodup :=
  ⟨(backfill_batch_invariant 2 5 (by decide) post202).1 3 (by decide),
   (backfill_batch_invariant 2 5 (by decide) post202).2.1 _ 1 202 "" rfl rfl
     (by decide) rfl,
   (backfill_batch_invariant 2 5 (by decide) post202).2.2⟩

end GenerateLogs

namespace StreamLogs

/-- Unfolding one cycle of the stream loop. -/
lemma streamRun_succ (rate n : Nat) (env : Nat → Nat → LiveEnv)
    (outcome : Nat → PostResult) (elapsed : Nat → ℚ) :
    streamRun rate (n + 1) env outcome elapsed =
      streamCycle rate (env n) (outcome n) (elapsed n)
        (streamRun rate n env outcome elapsed) := by
  unfold streamRun
  rw [List.range_succ, List.foldl_append, List.foldl_cons, List.foldl_nil]

/-- Full characterisation of the stream loop after n cycles, for any sequence
of outcomes: the loop never crashes, every cycle runs to completion,
batch_count counts exactly the accepted (202) cycles, every dispatched batch
holds exactly rate records, and the k-th sleep is max(0, 1 - elapsed k),
independent of every other cycle. -/
lemma streamRun_spec (rate n : Nat) (env : Nat → Nat → LiveEnv)
    (outcome : Nat → PostResult) (elapsed : Nat → ℚ) :
    (streamRun rate n env outcome elapsed).crashed = false ∧
    (streamRun rate n env outcome elapsed).cyclesRun = n ∧
    (streamRun rate n env outcome elapsed).batch_count =
      (List.range n).countP (fun k => (outcome k).is202) ∧
    (streamRun rate n env outcome elapsed).calls.map List.length =
      List.replicate n rate ∧
    (streamRun rate n env outcome elapsed).sleeps =
      (List.range n).map (fun k => max 0 (1 - elapsed k)) := by
  induction n with
  | zero => simp [streamRun, streamInit]
  | succ n ih =>
    obtain ⟨hcr, hcy, hbc, hca, hsl⟩ := ih
    rw [streamRun_succ]
    set s := streamRun rate n env outcome elapsed with hs
    cases ho : outcome n with
    | response status body =>
      have hcyc : streamCycle rate (env n) (.response status body) (elapsed n) s =
          { batch_count :=
              if status == 202 then s.batch_count + 1 else s.batch_count,
            cyclesRun := s.cyclesRun + 1,
            calls := s.calls ++
              [(List.range rate).map (fun i => generate_live_log_entry (env n i))],
            sleeps := s.sleeps ++ [max 0 (1 - elapsed n)],
            crashed := false } := by
        simp [streamCycle, hcr]
      rw [hcyc]
      have hcp : (List.range (n + 1)).countP (fun k => (outcome k).is202) =
          (List.range n).countP (fun k => (outcome k).is202) +
            (if status == 202 then 1 else 0) := by
        rw [List.range_succ, List.countP_append]
        simp [List.countP_cons, ho, PostResult.is202]
      refine ⟨rfl, by simp [hcy], ?_, ?_, ?_⟩
      · rw [hcp]
        by_cases h2 : status = 202 <;> simp [h2, hbc]
      · simp [hca, List.replicate_succ']
      · simp [List.range_succ, hsl]
    | raised e =>
      have hcyc : streamCycle rate (env n) (.raised e) (elapsed n) s =
          { s with
            cyclesRun := s.cyclesRun + 1,
            calls := s.calls ++
              [(List.range rate).map (fun i => generate_live_log_entry (env n i))],
            sleeps := s.sleeps ++ [max 0 (1 - elapsed n)] } := by
        simp [streamCycle, hcr, TransportError.isConnectionError]
      rw [hcyc]
      have hcp : (List.range (n + 1)).countP (fun k => (outcome k).is202) =
          (List.range n).countP (fun k => (outcome k).is202) := by
        rw [List.range_succ, List.countP_append]
        simp [List.countP_cons, ho, PostResult.is202]
      refine ⟨hcr, by simp [hcy], ?_, ?_, ?_⟩
      · rw [hcp]
        exact hbc
      · simp [hca, List.replicate_succ']
      · simp [List.range_succ, hsl]

/-- Claim C3: in stream mode a ConnectionFailure on any cycle is non-fatal:
whatever the outcome sequence, all n cycles run to completion (the loop never
aborts and never crashes on a connection failure), and the batch counter
counts exactly the accepted cycles — unaffected by failed cycles, it keeps
incrementing normally on the cycles that follow a failure. -/
theorem stream_connection_failure_nonfatal (rate n : Nat)
    (env : Nat → Nat → LiveEnv) (outcome : Nat → PostResult)
    (elapsed : Nat → ℚ) :
    (streamRun rate n env outcome elapsed).cyclesRun = n ∧
    (streamRun rate n env outcome elapsed).crashed = false ∧
    (streamRun rate n env outcome elapsed).batch_count =
      (List.range n).countP (fun k => (outcome k).is202) := by
  obtain ⟨hcr, hcy, hbc, -, -⟩ := streamRun_spec rate n env outcome elapsed
  exact ⟨hcy, hcr, hbc⟩

/-- Claim C4: each stream cycle dispatches one batch of exactly the target
rate record count and then sleeps max(0, quantum - elapsed) for that cycle's
own measured elapsed time (quantum = 1); when elapsed ≥ quantum the sleep is
zero, and no shortfall is carried into any later cycle, whose sleep depends
only on its own elapsed time. -/
theorem stream_rate_control (rate n : Nat) (env : Nat → Nat → LiveEnv)
    (outcome : Nat → PostResult) (elapsed : Nat → ℚ) :
    (streamRun rate n env outcome elapsed).calls.map List.length =
      List.replicate n rate ∧
    (∀ k, k < n → (streamRun rate n env outcome elapsed).sleeps.getD k 0 =
      max 0 (1 - elapsed k)) ∧
    (∀ k, k < n → 1 ≤ elapsed k →
      (streamRun rate n env outcome elapsed).sleeps.getD k 0 = 0) := by
  obtain ⟨-, -, -, hca, hsl⟩ := streamRun_spec rate n env outcome elapsed
  have hget : ∀ k, k < n →
      (streamRun rate n env outcome elapsed).sleeps.getD k 0 =
        max 0 (1 - elapsed k) := by
    intro k hk
    rw [hsl]
    have hk' : k < ((List.range n).map (fun k => max 0 (1 - elapsed k))).length := by
      simp [hk]
    rw [List.getD_eq_getElem _ _ hk', List.getElem_map, List.getElem_range]
  refine ⟨hca, hget, ?_⟩
  intro k hk he
  rw [hget k hk]
  have hle : (1 : ℚ) - elapsed k ≤ 0 := by linarith
  exact max_eq_left hle

/-- Witness for stream_rate_control at rate 1 over one cycle whose elapsed
time 2 exceeds the quantum: the sleep issued is zero. -/
theorem stream_rate_control_witness :
    (streamRun 1 1 liveEnvSeq streamPost202 elapsedTwo).calls.map List.length =
      List.replicate 1 1 ∧
    (streamRun 1 1 liveEnvSeq streamPost202 elapsedTwo).sleeps.getD 0 0 =
      max 0 (1 - elapsedTwo 0) ∧
    (streamRun 1 1 liveEnvSeq streamPost202 elapsedTwo).sleeps.getD 0 0 = 0 :=
  ⟨(stream_rate_control 1 1 liveEnvSeq streamPost202 elapsedTwo).1,
   (stream_rate_control 1 1 liveEnvSeq streamPost202 elapsedTwo).2.1 0
     (by decide),
   (stream_rate_control 1 1 liveEnvSeq streamPost202 elapsedTwo).2.2 0
     (by decide) (by norm_num [elapsedTwo])⟩

end StreamLogs

/-- Digits produced by decDigit are decimal digit characters. -/
lemma decDigit_isDigit (n : Nat) : (decDigit n).isDigit = true := by
  have h : n % 10 < 10 := Nat.mod_lt n (by norm_num)
  unfold decDigit
  set k := n % 10 with hk
  interval_cases k <;> decide

/-- The slice-and-suffix construction both scripts apply to the strftime
output: the result is the calendar prefix, a dot, the three leading
(millisecond) digits of the microsecond field, and a literal Z. -/
lemma pyTimestamp_eq (cal : Int → List Char) (sec : Int) (u : Nat) :
    pyTimestamp cal sec u =
      cal sec ++ ['.', decDigit (u / 100000), decDigit (u / 10000),
        decDigit (u / 1000), 'Z'] := by
  unfold pyTimestamp strftimeChars
  have hlen : (cal sec ++ '.' :: pad6 u).length = (cal sec).length + 7 := by
    simp [pad6]
  rw [hlen]
  have h3 : (cal sec).length + 7 - 3 = (cal sec).length + 4 := by omega
  rw [h3, List.take_append_eq_append_take,
    List.take_of_length_le
      (le_of_lt (by omega : (cal sec).length < (cal sec).length + 4))]
  have h4 : (cal sec).length + 4 - (cal sec).length = 4 := by omega
  rw [h4]
  simp [pad6]

/-- Lower bound of the randint model. -/
lemma randint_lower (a b r : Nat) : a ≤ randint a b r := Nat.le_add_right a _

/-- Upper bound of the randint model on a nonempty interval. -/
lemma randint_upper (a b r : Nat) (h : a ≤ b) : randint a b r ≤ b := by
  unfold randint
  have hm := Nat.mod_lt r (show 0 < b - a + 1 by omega)
  omega

namespace GenerateLogs

/-- One backfill iteration never sets the crashed flag: the only exception the
modelled post call can raise is a transport error, every one of which is a
ConnectionError that the except clause catches. -/
lemma backfillStep_crashed (B : Nat) (post : Nat → PostResult)
    (s : BackfillState) (i : Nat) (hc : s.crashed = false) :
    (backfillStep B post s i).crashed = false := by
  cases habort : s.aborted with
  | true =>
    rw [backfillStep_frozen B post s i (Or.inl habort)]
    exact hc
  | false =>
    by_cases hfill : B ≤ s.batch.length + 1
    · cases hp : post s.calls.length with
      | response status body =>
        rw [backfillStep_response B post s i status body habort hc hfill hp]
      | raised e =>
        rw [backfillStep_raised B post s i e habort hc hfill hp]
        exact hc
    · rw [backfillStep_append B post s i habort hc (by omega)]
      exact hc

/-- The backfill loop never crashes. -/
lemma backfillLoop_crashed (B : Nat) (post : Nat → PostResult) (n : Nat) :
    (backfillLoop B post n).crashed = false := by
  induction n with
  | zero => rfl
  | succ n ih =>
    rw [backfillLoop_succ]
    exact backfillStep_crashed B post _ n ih

/-- The final flush never sets the crashed flag either. -/
lemma backfillFinish_crashed (post : Nat → PostResult) (s : BackfillState)
    (hc : s.crashed = false) : (backfillFinish post s).crashed = false := by
  cases habort : s.aborted with
  | true =>
    rw [backfillFinish_frozen post s (Or.inl habort)]
    exact hc
  | false =>
    by_cases hb : s.batch = []
    · rw [backfillFinish_empty post s habort hc hb]
      exact hc
    · cases hp : post s.calls.length with
      | response status body =>
        rw [backfillFinish_response post s status body habort hc hb hp]
        exact hc
      | raised e =>
        rw [backfillFinish_raised post s e habort hc hb hp]
        exact hc

/-- No backfill run ends in an uncaught exception. -/
lemma backfillRun_crashed (T B : Nat) (post : Nat → PostResult) :
    (backfillRun T B post).crashed = false :=
  backfillFinish_crashed post _ (backfillLoop_crashed B post T)

/-- Claim C5: every backfill record timestamp is now - offset for an offset
drawn from the inclusive range [0, windowSeconds] (the support of the uniform
randint draw), so the timestamp instant, in microseconds, lies within
[now - windowSeconds, now]; and the formatted string is the calendar prefix
followed by a dot, exactly three digit characters, and a literal trailing
Z. -/
theorem backfill_timestamp_range_and_format (TIME_RANGE : String)
    (cal : Int → List Char) (nowSec : Int) (nowUsec : Nat) (g : GenEnv)
    (husec : nowUsec < 1000000) :
    randint 0 (get_time_range_seconds TIME_RANGE) g.r_offset ≤
      get_time_range_seconds TIME_RANGE ∧
    nowSec * 1000000 + (nowUsec : Int) -
        (get_time_range_seconds TIME_RANGE : Int) * 1000000 ≤
      (nowSec - (randint 0 (get_time_range_seconds TIME_RANGE) g.r_offset : Int))
        * 1000000 + (nowUsec : Int) ∧
    (nowSec - (randint 0 (get_time_range_seconds TIME_RANGE) g.r_offset : Int))
        * 1000000 + (nowUsec : Int) ≤ nowSec * 1000000 + (nowUsec : Int) ∧
    ∃ c1 c2 c3 : Char, c1.isDigit = true ∧ c2.isDigit = true ∧
      c3.isDigit = true ∧
      (generate_log_entry TIME_RANGE cal nowSec nowUsec g).getField
          "timestamp" =
        some (.str (String.mk (cal (nowSec -
            (randint 0 (get_time_range_seconds TIME_RANGE) g.r_offset : Int))
          ++ ['.', c1, c2, c3, 'Z']))) := by
  have hoff : randint 0 (get_time_range_seconds TIME_RANGE) g.r_offset ≤
      get_time_range_seconds TIME_RANGE :=
    randint_upper 0 _ g.r_offset (Nat.zero_le _)
  have hoffZ : ((randint 0 (get_time_range_seconds TIME_RANGE) g.r_offset : Nat) :
      Int) ≤ ((get_time_range_seconds TIME_RANGE : Nat) : Int) := by
    exact_mod_cast hoff
  have hpos : (0 : Int) ≤
      (randint 0 (get_time_range_seconds TIME_RANGE) g.r_offset : Int) :=
    Int.ofNat_nonneg _
  have hmul : (randint 0 (get_time_range_seconds TIME_RANGE) g.r_offset : Int)
        * 1000000 ≤ (get_time_range_seconds TIME_RANGE : Int) * 1000000 :=
    mul_le_mul_of_nonneg_right hoffZ (by norm_num)
  have hmul0 : (0 : Int) ≤
      (randint 0 (get_time_range_seconds TIME_RANGE) g.r_offset : Int)
        * 1000000 :=
    mul_nonneg hpos (by norm_num)
  refine ⟨hoff, by rw [sub_mul]; linarith, by rw [sub_mul]; linarith, ?_⟩
  refine ⟨decDigit (nowUsec / 100000), decDigit (nowUsec / 10000),
    decDigit (nowUsec / 1000), decDigit_isDigit _, decDigit_isDigit _,
    decDigit_isDigit _, ?_⟩
  simp only [generate_log_entry, JValue.getField, List.lookup,
    beq_self_eq_true]
  rw [pyTimestamp_eq]

/-- Witness for backfill_timestamp_range_and_format with an unrecognized
window name, the zero instant and the zero randomness environment. -/
theorem backfill_timestamp_range_and_format_witness :
    randint 0 (get_time_range_seconds "nope") genEnv0.r_offset ≤
      get_time_range_seconds "nope" ∧
    (∃ c1 c2 c3 : Char, c1.isDigit = true ∧ c2.isDigit = true ∧
      c3.isDigit = true ∧
      (generate_log_entry "nope" calNil 0 0 genEnv0).getField "timestamp" =
        some (.str (String.mk (calNil
            (0 - (randint 0 (get_time_range_seconds "nope") genEnv0.r_offset :
              Int))
          ++ ['.', c1, c2, c3, 'Z'])))) :=
  ⟨(backfill_timestamp_range_and_format "nope" calNil 0 0 genEnv0
      (by norm_num)).1,
   (backfill_timestamp_range_and_format "nope" calNil 0 0 genEnv0
      (by norm_num)).2.2.2⟩

/-- Claim C8: the windowSeconds lookup maps the four recognized names to
3600, 21600, 86400 and 604800, and maps any unrecognized name to the 24-hour
default 86400 without failing. -/
theorem time_range_window_lookup :
    get_time_range_seconds "last_hour" = 3600 ∧
    get_time_range_seconds "last_6_hours" = 21600 ∧
    get_time_range_seconds "last_24_hours" = 86400 ∧
    get_time_range_seconds "last_week" = 604800 ∧
    ∀ s : String, s ≠ "last_hour" → s ≠ "last_6_hours" →
      s ≠ "last_24_hours" → s ≠ "last_week" →
      get_time_range_seconds s = 86400 := by
  refine ⟨rfl, rfl, rfl, rfl, ?_⟩
  intro s h1 h2 h3 h4
  unfold get_time_range_seconds
  rw [if_neg h1, if_neg h2, if_neg h3, if_neg h4]

/-- Witness for time_range_window_lookup at a concrete unrecognized name. -/
theorem time_range_window_lookup_witness :
    get_time_range_seconds "yesterday" = 86400 ∧
    get_time_range_seconds "last_hour" = 3600 :=
  ⟨time_range_window_lookup.2.2.2.2 "yesterday" (by decide) (by decide)
      (by decide) (by decide),
   time_range_window_lookup.1⟩

end GenerateLogs

/-- Claim C7 (amended): every record of either generator carries exactly the
top-level fields timestamp, serviceId, level, message, traceId, metadata, and
its metadata mapping has exactly the fixed keys requestId, region, latency_ms,
version. -/
theorem record_field_names (TIME_RANGE : String) (cal : Int → List Char)
    (nowSec : Int) (nowUsec : Nat) (g : GenerateLogs.GenEnv)
    (e : StreamLogs.LiveEnv) :
    JValue.keys (GenerateLogs.generate_log_entry TIME_RANGE cal nowSec nowUsec g) =
      ["timestamp", "serviceId", "level", "message", "traceId", "metadata"] ∧
    metadataKeys (GenerateLogs.generate_log_entry TIME_RANGE cal nowSec nowUsec g) =
      ["requestId", "region", "latency_ms", "version"] ∧
    JValue.keys (StreamLogs.generate_live_log_entry e) =
      ["timestamp", "serviceId", "level", "message", "traceId", "metadata"] ∧
    metadataKeys (StreamLogs.generate_live_log_entry e) =
      ["requestId", "region", "latency_ms", "version"] :=
  ⟨rfl, rfl, rfl, rfl⟩

/-- Counterexample for claim C7 as stated: at a concrete generated record the
metadata key list is requestId, region, latency_ms, version — the key
latencyMs named by the claim does not occur. -/
theorem record_field_names_counterexample :
    metadataKeys (GenerateLogs.generate_log_entry "last_hour" calNil 0 0
        GenerateLogs.genEnv0) =
      ["requestId", "region", "latency_ms", "version"] ∧
    "latencyMs" ∉ metadataKeys (GenerateLogs.generate_log_entry "last_hour"
        calNil 0 0 GenerateLogs.genEnv0) := by
  refine ⟨rfl, ?_⟩
  decide

/-- Claim C10: for every record produced by either generator, the
latency_ms metadata value is an integer in the inclusive range [5, 2000], and
requestId is the string req- followed by an integer in the inclusive range
[1000, 9999]. -/
theorem metadata_numeric_ranges (TIME_RANGE : String) (cal : Int → List Char)
    (nowSec : Int) (nowUsec : Nat) (g : GenerateLogs.GenEnv)
    (e : StreamLogs.LiveEnv) :
    (∃ v, (metadataOf (GenerateLogs.generate_log_entry TIME_RANGE cal nowSec
        nowUsec g)).getField "latency_ms" = some (.num v) ∧ 5 ≤ v ∧ v ≤ 2000) ∧
    (∃ m, (metadataOf (GenerateLogs.generate_log_entry TIME_RANGE cal nowSec
        nowUsec g)).getField "requestId" =
        some (.str ("req-" ++ toString m)) ∧ 1000 ≤ m ∧ m ≤ 9999) ∧
    (∃ v, (metadataOf (StreamLogs.generate_live_log_entry e)).getField
        "latency_ms" = some (.num v) ∧ 5 ≤ v ∧ v ≤ 2000) ∧
    (∃ m, (metadataOf (StreamLogs.generate_live_log_entry e)).getField
        "requestId" = some (.str ("req-" ++ toString m)) ∧
        1000 ≤ m ∧ m ≤ 9999) :=
  ⟨⟨randint 5 2000 g.r_latency, rfl, randint_lower 5 2000 g.r_latency,
      randint_upper 5 2000 g.r_latency (by norm_num)⟩,
   ⟨randint 1000 9999 g.r_request, rfl, randint_lower 1000 9999 g.r_request,
      randint_upper 1000 9999 g.r_request (by norm_num)⟩,
   ⟨randint 5 2000 e.r_latency, rfl, randint_lower 5 2000 e.r_latency,
      randint_upper 5 2000 e.r_latency (by norm_num)⟩,
   ⟨randint 1000 9999 e.r_request, rfl, randint_lower 1000 9999 e.r_request,
      randint_upper 1000 9999 e.r_request (by norm_num)⟩⟩

/-- Claim C6: every modelled transport-level unreachability exception — the
connection-phase failures requests can raise here, a connect timeout before
any response included — is an instance of ConnectionError, is classified as
ConnectionFailure by the branch structure of the scripts, and is handled by
the mode's failure policy: in the modelled outcome space neither mode ever
crashes (the backfill loop only ever ends in its explicit aborted state or
completes; the stream loop completes every cycle). -/
theorem error_classification (bl T B rate n : Nat) (post : Nat → PostResult)
    (env : Nat → Nat → StreamLogs.LiveEnv) (outcome : Nat → PostResult)
    (elapsed : Nat → ℚ) (e : TransportError) :
    e.isConnectionError = true ∧
    classifyOutcome bl (.raised e) = .connectionFailure e ∧
    (GenerateLogs.backfillRun T B post).crashed = false ∧
    (StreamLogs.streamRun rate n env outcome elapsed).crashed = false ∧
    (StreamLogs.streamRun rate n env outcome elapsed).cyclesRun = n := by
  obtain ⟨hcr, hcy, -, -, -⟩ := StreamLogs.streamRun_spec rate n env outcome
    elapsed
  exact ⟨rfl, rfl, GenerateLogs.backfillRun_crashed T B post, hcr, hcy⟩

end LogAggregator
